import Mathlib

/-!
# Verification of the live job-feed synchronization and notification subsystem

Shallow embedding of the strong-match job feed logic of
`src/new-ui-upwork/src/pages/admin/JobsPage.tsx` (the `JobsPage` React
component): the fetch → diff → notify → merge pipeline
(`fetchJobsByRelevance`), the all-mode fetch (`fetchJobsData`), the
notification toggle (`toggleNotifications`), the native-alert truncation
(`showNotification`), and the polling lifecycle
(`startPolling` / `stopPolling` / the polling `useEffect`).

Modelling conventions:
* JavaScript job ids may be numbers, strings, `null` or `undefined`; they
  are modelled by `JId` (with `null`/`undefined` collapsed into `JId.null`
  both of which fail the loose `job.id != null` test and both of which
  `String(...)`-normalize to a fixed string).
* A JS `Set` of normalized id strings is modelled as `Finset String`.
* JS strings are Lean `String`s; `s.length` plays the role of
  `string.length` and `s.take n` the role of `string.substring(0, n)`.
* A network fetch is an oracle input `FetchOutcome`: either a decoded JSON
  snapshot (a list of jobs) or a failure (non-success HTTP status or
  transport/decoding error, which `throw`s before any state mutation).
* React state setters become explicit state passing over `SysState`;
  side-effect channels (native alerts, toasts) are returned in the output
  record so theorems can talk about what was fired.
-/

namespace UpSale

/-- A JavaScript job id as it can arrive in the JSON snapshot: a number, a
string, or a missing value (`null`/`undefined`, collapsed). -/
inductive JId where
  | num (n : Int)
  | str (s : String)
  | null
deriving DecidableEq, Repr

/-- Model of `String(job.id)`: the id normalization used throughout
`JobsPage.tsx` (lines 259, 266, 286, 293, 303, 304). A numeric id becomes
its decimal string, a string id is itself, and a missing id becomes the
string "null". -/
def stringOfId : JId → String
  | .num n => toString n
  | .str s => s
  | .null => "null"

/-- The loose test `job.id != null` (line 258): false exactly for a
missing (`null`/`undefined`) id. -/
def idNonNull : JId → Bool
  | .null => false
  | _ => true

/-- A job record, keeping only the fields this subsystem interprets
(`id`, `title`, `description`); all other fields are opaque pass-through
display attributes. -/
structure Job where
  id : JId
  title : String
  description : Option String
deriving DecidableEq, Repr

/-- Model of `new Set(jobs.map(job => String(job.id)))`: the set of normalized id
strings of a list of jobs (no non-null filtering). -/
def idsOf (jobs : List Job) : Finset String :=
  (jobs.map fun j => stringOfId j.id).toFinset

/-- Boolean membership test in a finset of id strings, the model of
`set.has(x)`. -/
def memB (x : String) (s : Finset String) : Bool :=
  decide (x ∈ s)

/-- Model of `jobs.filter(job => job.id != null)` (line 258): the snapshot
restricted to items with a non-null id. -/
def validJobsOf (jobs : List Job) : List Job :=
  jobs.filter fun j => idNonNull j.id

/-- The normalized ids of the non-null-id items of a snapshot (the
`currentJobIds` of line 259). -/
def validIdsOf (jobs : List Job) : Finset String :=
  idsOf (validJobsOf jobs)

/-- The in-memory state of the subsystem: the rendered feed (`jobs`
state), the seen-id set (`previousStrongMatchJobIds` ref), the baseline
flag (`isInitialRelevantJobsLoad` ref), the enable flag
(`notificationsEnabled` state), the persisted preference
(`localStorage.notificationsEnabled`), the api-error flag (`apiError`
state) and the loading indicator (`loading` state). -/
structure SysState where
  jobs : List Job
  seen : Finset String
  baseline : Bool
  notificationsEnabled : Bool
  storedPref : Bool
  apiError : Bool
  loading : Bool
deriving DecidableEq

/-- The sample dataset (`sampleJobs`, lines 29-102), reduced to the fields
this subsystem interprets. -/
def sampleJobs : List Job :=
  [ { id := .num 1
      title := "React Developer Needed for E-commerce Platform"
      description := some "We are looking for an experienced React developer to help us build a modern e-commerce platform. The ideal candidate should have experience with React, TypeScript, and modern web development practices." },
    { id := .num 2
      title := "WordPress Developer for Blog Redesign"
      description := some "Need a skilled WordPress developer to redesign our company blog. Must have experience with custom themes, plugins, and WordPress best practices." },
    { id := .num 3
      title := "Mobile App Developer for iOS and Android"
      description := some "Looking for a mobile app developer to create a cross-platform application for both iOS and Android. Experience with React Native or Flutter is required." } ]

/-- The outcome of one network fetch: a decoded snapshot, or a failure
(non-success HTTP status or transport error, which throws before any
state is mutated). -/
inductive FetchOutcome where
  | success (data : List Job)
  | failure
deriving DecidableEq

/-- Model of the title truncation in `showNotification` (line 177):
`jobTitle.length > 100 ? jobTitle.substring(0, 100) + '...' : jobTitle`. -/
def truncatedTitle (jobTitle : String) : String :=
  if jobTitle.length > 100 then jobTitle.take 100 ++ "..." else jobTitle

/-- Model of the description truncation in `showNotification` (line 178):
`jobDescription.length > 200 ? jobDescription.substring(0, 200) + '...' : jobDescription`. -/
def truncatedDescription (jobDescription : String) : String :=
  if jobDescription.length > 200 then jobDescription.take 200 ++ "..." else jobDescription

/-- The body of the native alert (line 183):
`` `Details: ${truncatedTitle}\n\n${truncatedDescription}` ``. -/
def notificationBody (jobTitle jobDescription : String) : String :=
  "Details: " ++ truncatedTitle jobTitle ++ "\n\n" ++ truncatedDescription jobDescription

/-- Model of `job.description || 'No description available'` (line 274): JS `||`
falls through on every falsy value, so both a missing description and an
empty string select the default. -/
def descriptionOrDefault : Option String → String
  | some s => if s = "" then "No description available" else s
  | none => "No description available"

/-- The jobs alerted on by one successful strong-match fetch
(lines 257-275): nothing when `notificationsEnabled` is false; nothing on
the baseline pass (`isInitialRelevantJobsLoad.current`); otherwise the
non-null-id snapshot items whose normalized id is not in
`previousStrongMatchJobIds.current` (line 266), in snapshot order. -/
def strongMatchAlerts (s : SysState) (fetchedData : List Job) : List Job :=
  if s.notificationsEnabled then
    if s.baseline then []
    else (validJobsOf fetchedData).filter fun j => !memB (stringOfId j.id) s.seen
  else []

/-- The baseline flag after one successful strong-match fetch
(line 263): it is cleared only inside the `notificationsEnabled` block
on the baseline pass; otherwise it keeps its value. -/
def baselineAfterFetch (s : SysState) : Bool :=
  if s.notificationsEnabled then
    if s.baseline then false else s.baseline
  else s.baseline

/-- The background merge of a polled strong-match snapshot into the
previous feed (lines 302-308): items of the snapshot whose normalized id
is not among the previous feed's normalized ids are prepended; if there
are none, the previous list itself is returned. -/
def mergeBackgroundStrong (prevJobs fetchedData : List Job) : List Job :=
  let newJobsToAdd := fetchedData.filter fun j => !memB (stringOfId j.id) (idsOf prevJobs)
  if newJobsToAdd.length > 0 then newJobsToAdd ++ prevJobs else prevJobs

/-- The observable result of one call to `fetchJobsByRelevance` in
strong-match mode: the successor state, the jobs passed to
`showNotification` (each fires the native alert and a per-job toast), the
summary toast of line 278, and the "API Unavailable" toast of line 322. -/
structure StrongFetchOutput where
  state : SysState
  alerts : List Job
  summaryToast : Bool
  apiUnavailableToast : Bool
deriving DecidableEq

/-- Model of `fetchJobsByRelevance('strong', isPolling)` (lines 237-334), with the
network call abstracted into `outcome`. On failure: only a non-polling
call falls back to `sampleJobs`, sets the api-error flag and fires the
"API Unavailable" toast (lines 319-328); a polling failure is only
logged. On success: alerts are computed against the seen-set from before
the call (`strongMatchAlerts`), the seen-set is then unconditionally
replaced by the normalized ids of the whole snapshot (line 293, no
non-null filter), and the feed is wholesale-replaced (non-polling) or
background-merged (polling) (lines 297-310). The loading indicator is
toggled only by non-polling calls (lines 238-240, 330-332). -/
def fetchJobsByRelevanceStrong (s : SysState) (isPolling : Bool)
    (outcome : FetchOutcome) : StrongFetchOutput :=
  match outcome with
  | .failure =>
      if isPolling then
        { state := s, alerts := [], summaryToast := false, apiUnavailableToast := false }
      else
        { state := { s with jobs := sampleJobs, apiError := true, loading := false }
          alerts := []
          summaryToast := false
          apiUnavailableToast := true }
  | .success fetchedData =>
      let alerts := strongMatchAlerts s fetchedData
      { state :=
          { s with
            jobs :=
              if isPolling then mergeBackgroundStrong s.jobs fetchedData
              else fetchedData
            seen := idsOf fetchedData
            baseline := baselineAfterFetch s
            apiError := false
            loading := if isPolling then s.loading else false }
        alerts := alerts
        summaryToast := alerts.length > 0
        apiUnavailableToast := false }

/-- The observable result of one call to `fetchJobsData` (all mode). -/
structure AllFetchOutput where
  state : SysState
  apiUnavailableToast : Bool
deriving DecidableEq

/-- Model of `fetchJobsData` (lines 136-168): wholesale replacement of the feed on
success; fallback to `sampleJobs`, api-error flag and "API Unavailable"
toast on any failure. The loading indicator is always cleared in the
`finally` block. -/
def fetchJobsData (s : SysState) (outcome : FetchOutcome) : AllFetchOutput :=
  match outcome with
  | .success data =>
      { state := { s with jobs := data, apiError := false, loading := false }
        apiUnavailableToast := false }
  | .failure =>
      { state := { s with jobs := sampleJobs, apiError := true, loading := false }
        apiUnavailableToast := true }

/-- The browser notification permission state. -/
inductive Permission where
  | granted
  | denied
  | defaultPerm
deriving DecidableEq

/-- The observable result of one call to `toggleNotifications`. -/
structure ToggleOutput where
  state : SysState
  enabledToast : Bool
  disabledToast : Bool
  deniedToast : Bool
deriving DecidableEq

/-- Model of `toggleNotifications` (lines 336-388). `currentPermission` is
`Notification.permission` at entry; `requestResult` is the value
`Notification.requestPermission()` would resolve to if called. Enabling
(from disabled, with permission granted either way) sets the enable flag
persists the preference, empties the seen-set and re-arms the baseline
flag; a denial leaves the state unchanged apart from the error toast.
Disabling always resets the same trio and persists `false`. -/
def toggleNotifications (s : SysState) (currentPermission requestResult : Permission) :
    ToggleOutput :=
  if s.notificationsEnabled then
    { state :=
        { s with
          notificationsEnabled := false
          storedPref := false
          seen := ∅
          baseline := true }
      enabledToast := false
      disabledToast := true
      deniedToast := false }
  else if currentPermission = .granted then
    { state :=
        { s with
          notificationsEnabled := true
          storedPref := true
          seen := ∅
          baseline := true }
      enabledToast := true
      disabledToast := false
      deniedToast := false }
  else if requestResult = .granted then
    { state :=
        { s with
          notificationsEnabled := true
          storedPref := true
          seen := ∅
          baseline := true }
      enabledToast := true
      disabledToast := false
      deniedToast := false }
  else
    { state := s, enabledToast := false, disabledToast := false, deniedToast := true }

/-- The state of the polling lifecycle (lines 400-425, 462-478): `active`
is the list of `setInterval` handles currently scheduled and not yet
cleared, `pendingCleanup` is the handle captured by the last run of the
polling `useEffect` whose cleanup has not yet executed, `cancelled`
records every handle passed to `clearInterval`, `nextId` is a fresh-handle
counter, and `pipelineRuns` records the handles whose tick has run the
fetch → diff → notify → merge pipeline (line 409). -/
structure SchedState where
  active : List Nat
  pendingCleanup : Option Nat
  cancelled : List Nat
  nextId : Nat
  pipelineRuns : List Nat
deriving DecidableEq, Repr

/-- The scheduler state at subsystem start: no timer exists. -/
def initSched : SchedState :=
  { active := [], pendingCleanup := none, cancelled := [], nextId := 0, pipelineRuns := [] }

/-- One event of the polling lifecycle.

* `effectStart`: a run of the polling `useEffect` body in strong+enabled
  mode calls `startPolling` (line 464): a fresh `setInterval` handle is
  created and captured by the run's cleanup closure. The React runtime
  executes the previous run's cleanup before the next body runs, so a body
  may run only when no cleanup is pending (`startPolling`'s own
  `clearInterval(pollingInterval)` at lines 401-403 then acts on an
  already-cleared handle, a no-op).
* `effectCleanup`: the pending cleanup executes — on dependency change
  (mode change, enable-toggle), on the else-branch `stopPolling`
  (line 469), or on unmount (lines 474-478) — and `clearInterval`s the
  captured handle.
* `tick`: a scheduled tick of timer `t` fires and runs the pipeline;
  `setInterval`/`clearInterval` semantics on the single-threaded event
  loop guarantee that only a handle that is scheduled and not cleared can
  fire. -/
inductive SchedStep : SchedState → SchedState → Prop where
  | effectStart (s : SchedState) (h : s.pendingCleanup = none) :
      SchedStep s
        { active := s.active ++ [s.nextId]
          pendingCleanup := some s.nextId
          cancelled := s.cancelled
          nextId := s.nextId + 1
          pipelineRuns := s.pipelineRuns }
  | effectCleanup (s : SchedState) (t : Nat) (h : s.pendingCleanup = some t) :
      SchedStep s
        { s with
          active := s.active.erase t
          pendingCleanup := none
          cancelled := t :: s.cancelled }
  | tick (s : SchedState) (t : Nat) (h : t ∈ s.active) :
      SchedStep s { s with pipelineRuns := t :: s.pipelineRuns }

/-- The scheduler states reachable from subsystem start. -/
inductive SchedReachable : SchedState → Prop where
  | init : SchedReachable initSched
  | step {s s' : SchedState} : SchedReachable s → SchedStep s s' → SchedReachable s'

/-- Inductive invariant of the polling lifecycle: the scheduled timers are
exactly the (at most one) handle awaiting cleanup, handles are allocated
below `nextId`, and no cleared handle is still scheduled. -/
def SchedInv (s : SchedState) : Prop :=
  (s.pendingCleanup = none → s.active = []) ∧
  (∀ t, s.pendingCleanup = some t → (s.active = [] ∨ s.active = [t]) ∧ t < s.nextId) ∧
  (∀ t ∈ s.cancelled, t < s.nextId) ∧
  (∀ t ∈ s.cancelled, t ∉ s.active)

/-- A 101-character title, exceeding the 100-character truncation limit. -/
def longTitle : String :=
  String.mk (List.replicate 101 'a')

/-- A 201-character description, exceeding the 200-character limit. -/
def longDescription : String :=
  String.mk (List.replicate 201 'b')

/-- Helper: the id of a member of a list is among the list's ids. -/
theorem mem_idsOf {j : Job} {l : List Job} (h : j ∈ l) : stringOfId j.id ∈ idsOf l := by
  simp only [idsOf, List.mem_toFinset, List.mem_map]
  exact ⟨j, h, rfl⟩

/-- Helper: `idsOf` distributes over append. -/
theorem idsOf_append (a b : List Job) : idsOf (a ++ b) = idsOf a ∪ idsOf b := by
  simp [idsOf]

/-- Helper: the boolean seen-set test agrees with membership. -/
theorem memB_eq_true {x : String} {A : Finset String} : memB x A = true ↔ x ∈ A := by
  simp [memB]

/-- Helper: ids of the items filtered to ids outside `A` are the ids minus `A`. -/
theorem idsOf_filter_not_mem (l : List Job) (A : Finset String) :
    idsOf (l.filter fun j => !memB (stringOfId j.id) A) = idsOf l \ A := by
  ext x
  simp only [idsOf, List.mem_toFinset, List.mem_map, List.mem_filter, Finset.mem_sdiff,
    Bool.not_eq_true', memB, decide_eq_false_iff_not]
  constructor
  · rintro ⟨j, ⟨hj, hA⟩, rfl⟩
    exact ⟨⟨j, hj, rfl⟩, hA⟩
  · rintro ⟨⟨j, hj, rfl⟩, hA⟩
    exact ⟨j, ⟨hj, hA⟩, rfl⟩

/-- Helper: if every snapshot id is already in the previous feed, the
background merge returns the previous feed itself. -/
theorem mergeBackgroundStrong_eq_self {prev snap : List Job}
    (h : ∀ j ∈ snap, stringOfId j.id ∈ idsOf prev) :
    mergeBackgroundStrong prev snap = prev := by
  unfold mergeBackgroundStrong
  have hnil : (snap.filter fun j => !memB (stringOfId j.id) (idsOf prev)) = [] := by
    rw [List.filter_eq_nil_iff]
    intro a ha
    simp [memB, h a ha]
  simp [hnil]

/-- Helper: after a background merge every snapshot id is in the feed. -/
theorem mem_idsOf_mergeBackgroundStrong (prev : List Job) {j : Job} {snap : List Job}
    (h : j ∈ snap) :
    stringOfId j.id ∈ idsOf (mergeBackgroundStrong prev snap) := by
  unfold mergeBackgroundStrong
  dsimp only
  by_cases hm : memB (stringOfId j.id) (idsOf prev) = true
  · split
    · rw [idsOf_append]
      exact Finset.mem_union_right _ (memB_eq_true.mp hm)
    · exact memB_eq_true.mp hm
  · have hj : j ∈ snap.filter fun j => !memB (stringOfId j.id) (idsOf prev) := by
      rw [List.mem_filter]
      exact ⟨h, by simp [hm]⟩
    split
    · rw [idsOf_append]
      exact Finset.mem_union_left _ (mem_idsOf hj)
    · rename_i hlen
      rw [Nat.not_lt, Nat.le_zero, List.length_eq_zero] at hlen
      rw [hlen] at hj
      cases hj

/-- Helper: when the baseline flag is armed, a successful strong-match
fetch alerts on nothing. -/
theorem strongMatchAlerts_of_baseline {s : SysState} (data : List Job)
    (h : s.baseline = true) : strongMatchAlerts s data = [] := by
  unfold strongMatchAlerts
  rcases hb : s.notificationsEnabled <;> simp [hb, h]

/-- Helper: when notifications are disabled, nothing is alerted. -/
theorem strongMatchAlerts_of_disabled {s : SysState} (data : List Job)
    (h : s.notificationsEnabled = false) : strongMatchAlerts s data = [] := by
  unfold strongMatchAlerts
  simp [h]

/-- Helper: the baseline flag after a fetch, from an armed state. -/
theorem baselineAfterFetch_of_baseline {s : SysState} (h : s.baseline = true) :
    baselineAfterFetch s = !s.notificationsEnabled := by
  unfold baselineAfterFetch
  rcases hb : s.notificationsEnabled <;> simp [hb, h]

/-- Helper: with notifications enabled a successful fetch always leaves
the baseline flag cleared. -/
theorem baselineAfterFetch_of_enabled {s : SysState}
    (h : s.notificationsEnabled = true) : baselineAfterFetch s = false := by
  unfold baselineAfterFetch
  rcases hb : s.baseline <;> simp [hb, h]

/-- Helper: the state after a successful strong-match fetch, explicitly. -/
theorem fetch_success_state (s : SysState) (poll : Bool) (data : List Job) :
    (fetchJobsByRelevanceStrong s poll (.success data)).state =
      { s with
        jobs := if poll then mergeBackgroundStrong s.jobs data else data
        seen := idsOf data
        baseline := baselineAfterFetch s
        apiError := false
        loading := if poll then s.loading else false } := rfl

/-- Helper: the alerts of a successful strong-match fetch. -/
theorem fetch_success_alerts (s : SysState) (poll : Bool) (data : List Job) :
    (fetchJobsByRelevanceStrong s poll (.success data)).alerts =
      strongMatchAlerts s data := rfl

/-- Helper: the summary toast of a successful strong-match fetch fires
iff some job was alerted. -/
theorem fetch_success_summaryToast (s : SysState) (poll : Bool) (data : List Job) :
    (fetchJobsByRelevanceStrong s poll (.success data)).summaryToast =
      decide ((strongMatchAlerts s data).length > 0) := rfl

/-- C1 (counterexample): the claim says that whenever the baseline flag is
true, a strong-match fetch flips it to false. With notifications disabled
(a possible state at subsystem start, since the flag reads from the
persisted preference) the code's whole diff block is skipped and the flag
stays true: fetching `[{id: 1}]` from the disabled armed state leaves
`isInitialRelevantJobsLoad` at `true`, even though no notification fires
and the seen-set is still replaced. -/
theorem baselineAdoption_cex :
    (SysState.mk [] ∅ true false false false false).baseline = true ∧
    (fetchJobsByRelevanceStrong (SysState.mk [] ∅ true false false false false) false
        (.success [Job.mk (.num 1) "t" none])).state.baseline = true := by
  exact ⟨rfl, rfl⟩

/-- C1 (amended): when the baseline flag is armed, a successful
strong-match fetch fires no notifications (no alert, no summary toast)
regardless of the snapshot, and the seen-set is unconditionally replaced
by the snapshot's normalized ids; the flag flips to false exactly when
notifications are enabled (when they are disabled the diff block is
skipped and the flag stays armed). -/
theorem baselineAdoption (s : SysState) (poll : Bool) (data : List Job)
    (h : s.baseline = true) :
    (fetchJobsByRelevanceStrong s poll (.success data)).alerts = [] ∧
    (fetchJobsByRelevanceStrong s poll (.success data)).summaryToast = false ∧
    (fetchJobsByRelevanceStrong s poll (.success data)).state.seen = idsOf data ∧
    (fetchJobsByRelevanceStrong s poll (.success data)).state.baseline =
      !s.notificationsEnabled := by
  have ha : strongMatchAlerts s data = [] := strongMatchAlerts_of_baseline data h
  refine ⟨ha, ?_, rfl, ?_⟩
  · show decide (List.length (strongMatchAlerts s data) > 0) = false
    simp [ha]
  · show baselineAfterFetch s = !s.notificationsEnabled
    exact baselineAfterFetch_of_baseline h

/-- C1 (witness): the amended statement at a concrete armed, enabled
state and a one-element snapshot. -/
theorem baselineAdoption_witness :
    (fetchJobsByRelevanceStrong (SysState.mk [] ∅ true true true false false) false
        (.success [Job.mk (.num 7) "t" none])).alerts = [] ∧
    (fetchJobsByRelevanceStrong (SysState.mk [] ∅ true true true false false) false
        (.success [Job.mk (.num 7) "t" none])).summaryToast = false ∧
    (fetchJobsByRelevanceStrong (SysState.mk [] ∅ true true true false false) false
        (.success [Job.mk (.num 7) "t" none])).state.seen =
      idsOf [Job.mk (.num 7) "t" none] ∧
    (fetchJobsByRelevanceStrong (SysState.mk [] ∅ true true true false false) false
        (.success [Job.mk (.num 7) "t" none])).state.baseline =
      !(SysState.mk [] ∅ true true true false false).notificationsEnabled :=
  baselineAdoption (SysState.mk [] ∅ true true true false false) false
    [Job.mk (.num 7) "t" none] rfl

/-- C3: after every successful strong-match fetch — enabled or disabled,
baseline pass or not, polling or manual — the seen-set equals exactly the
set of `String(...)`-normalized ids of all items of that snapshot
(line 293 runs unconditionally and does not apply the non-null filter the
diff uses). -/
theorem seenIdSet_invariant (s : SysState) (poll : Bool) (data : List Job) :
    (fetchJobsByRelevanceStrong s poll (.success data)).state.seen = idsOf data := rfl

/-- C5 (counterexample): the claim asserts the sample-data fallback and
"API Unavailable" warning for every failed fetch, but a background-poll
failure (`isPolling = true`, lines 319-328) is only logged: from an empty
feed, a failed polling fetch leaves the feed empty (not the sample jobs)
and fires no warning toast. -/
theorem fallback_cex :
    (fetchJobsByRelevanceStrong (SysState.mk [] ∅ false true true false false) true
        .failure).state.jobs = [] ∧
    sampleJobs ≠ [] ∧
    (fetchJobsByRelevanceStrong (SysState.mk [] ∅ false true true false false) true
        .failure).apiUnavailableToast = false := by
  refine ⟨rfl, ?_, rfl⟩
  intro h
  cases h

/-- C5 (amended): every *non-polling* fetch that fails — `fetchJobsData`
in all mode, or a manual/initial strong-match fetch — replaces the feed
with the cached sample dataset, sets the api-error flag and surfaces the
non-fatal "API Unavailable" toast; a failed *background-poll* fetch
instead leaves all state unchanged and surfaces nothing (the failure is
only logged). -/
theorem fallback_on_failure (s : SysState) :
    ((fetchJobsData s .failure).state.jobs = sampleJobs ∧
      (fetchJobsData s .failure).state.apiError = true ∧
      (fetchJobsData s .failure).apiUnavailableToast = true) ∧
    ((fetchJobsByRelevanceStrong s false .failure).state.jobs = sampleJobs ∧
      (fetchJobsByRelevanceStrong s false .failure).state.apiError = true ∧
      (fetchJobsByRelevanceStrong s false .failure).apiUnavailableToast = true) ∧
    ((fetchJobsByRelevanceStrong s true .failure).state = s ∧
      (fetchJobsByRelevanceStrong s true .failure).apiUnavailableToast = false) :=
  ⟨⟨rfl, rfl, rfl⟩, ⟨rfl, rfl, rfl⟩, rfl, rfl⟩

/-- C9: while notifications are disabled no successful strong-match fetch
fires any notification — no native alert, no per-job toast, no summary
toast — however many new ids the snapshot contains, yet the feed is still
updated with the fetched data: every fetched item's normalized id is in
the resulting feed (wholesale replacement on a manual fetch, background
merge on a polling fetch). -/
theorem disabled_fetch_silent (s : SysState) (poll : Bool) (data : List Job)
    (h : s.notificationsEnabled = false) :
    (fetchJobsByRelevanceStrong s poll (.success data)).alerts = [] ∧
    (fetchJobsByRelevanceStrong s poll (.success data)).summaryToast = false ∧
    ∀ j ∈ data,
      stringOfId j.id ∈ idsOf (fetchJobsByRelevanceStrong s poll (.success data)).state.jobs := by
  have ha : strongMatchAlerts s data = [] := strongMatchAlerts_of_disabled data h
  refine ⟨ha, ?_, ?_⟩
  · show decide (List.length (strongMatchAlerts s data) > 0) = false
    simp [ha]
  · intro j hj
    show stringOfId j.id ∈ idsOf (if poll then mergeBackgroundStrong s.jobs data else data)
    rcases poll
    · exact mem_idsOf hj
    · exact mem_idsOf_mergeBackgroundStrong s.jobs hj

/-- C9 (witness): a disabled state fetching a snapshot with one brand-new
id: nothing fires and the new id is in the feed. -/
theorem disabled_fetch_silent_witness :
    (fetchJobsByRelevanceStrong (SysState.mk [] ∅ false false false false false) false
        (.success [Job.mk (.num 9) "t" none])).alerts = [] ∧
    (fetchJobsByRelevanceStrong (SysState.mk [] ∅ false false false false false) false
        (.success [Job.mk (.num 9) "t" none])).summaryToast = false ∧
    ∀ j ∈ [Job.mk (.num 9) "t" none],
      stringOfId j.id ∈
        idsOf (fetchJobsByRelevanceStrong (SysState.mk [] ∅ false false false false false)
          false (.success [Job.mk (.num 9) "t" none])).state.jobs :=
  disabled_fetch_silent (SysState.mk [] ∅ false false false false false) false
    [Job.mk (.num 9) "t" none] rfl

/-- C10: a failed background poll (`isPolling = true`) is atomic: the
whole subsystem state — feed, seen-set, baseline flag, enable flag,
persisted preference, api-error flag and loading indicator — is exactly
what it was, and no alert, summary toast or "API Unavailable" warning is
produced (lines 317-333: the catch and finally blocks skip every setter
when polling). -/
theorem polling_failure_atomic (s : SysState) :
    (fetchJobsByRelevanceStrong s true .failure).state = s ∧
    (fetchJobsByRelevanceStrong s true .failure).alerts = [] ∧
    (fetchJobsByRelevanceStrong s true .failure).summaryToast = false ∧
    (fetchJobsByRelevanceStrong s true .failure).apiUnavailableToast = false :=
  ⟨rfl, rfl, rfl, rfl⟩

/-- C4: the background merge prepends to the previous feed exactly the
snapshot items whose normalized id is not an id of the previous feed,
keeping the previous feed as an unchanged suffix; when every snapshot id
is already present it returns the previous feed itself; and merging the
same snapshot twice in background mode gives the same feed as one
merge. -/
theorem mergeBackground_spec (prev snap : List Job) :
    mergeBackgroundStrong prev snap =
      (snap.filter fun j => !memB (stringOfId j.id) (idsOf prev)) ++ prev ∧
    ((∀ j ∈ snap, stringOfId j.id ∈ idsOf prev) →
      mergeBackgroundStrong prev snap = prev) ∧
    mergeBackgroundStrong (mergeBackgroundStrong prev snap) snap =
      mergeBackgroundStrong prev snap := by
  refine ⟨?_, mergeBackgroundStrong_eq_self, ?_⟩
  · unfold mergeBackgroundStrong
    dsimp only
    split
    · rfl
    · rename_i hlen
      rw [Nat.not_lt, Nat.le_zero, List.length_eq_zero] at hlen
      rw [hlen, List.nil_append]
  · exact mergeBackgroundStrong_eq_self fun j hj =>
      mem_idsOf_mergeBackgroundStrong prev hj

/-- C4 (witness): merging a snapshot whose only id is already in the feed
returns the feed unchanged (exercising the implication). -/
theorem mergeBackground_spec_witness :
    mergeBackgroundStrong [Job.mk (.num 1) "a" none] [Job.mk (.num 1) "a2" none] =
      [Job.mk (.num 1) "a" none] :=
  (mergeBackground_spec [Job.mk (.num 1) "a" none] [Job.mk (.num 1) "a2" none]).2.1
    (by decide)

/-- C7: disabling and re-enabling notifications (with browser permission
already granted) empties the seen-set, re-arms the baseline flag and
leaves notifications enabled, so the next successful strong-match fetch —
in particular one returning a previously-seen-and-unchanged snapshot —
fires nothing (no alert and no summary toast). -/
theorem toggle_roundtrip (s : SysState) (p1 r1 r2 : Permission) (poll : Bool)
    (data : List Job) (hEn : s.notificationsEnabled = true) :
    (toggleNotifications (toggleNotifications s p1 r1).state .granted r2).state.seen = ∅ ∧
    (toggleNotifications (toggleNotifications s p1 r1).state .granted r2).state.baseline
      = true ∧
    (toggleNotifications
        (toggleNotifications s p1 r1).state .granted r2).state.notificationsEnabled
      = true ∧
    (fetchJobsByRelevanceStrong
        (toggleNotifications (toggleNotifications s p1 r1).state .granted r2).state poll
        (.success data)).alerts = [] ∧
    (fetchJobsByRelevanceStrong
        (toggleNotifications (toggleNotifications s p1 r1).state .granted r2).state poll
        (.success data)).summaryToast = false := by
  have h1 : (toggleNotifications s p1 r1).state =
      { s with
        notificationsEnabled := false
        storedPref := false
        seen := ∅
        baseline := true } := by
    simp [toggleNotifications, hEn]
  have h2 : (toggleNotifications (toggleNotifications s p1 r1).state .granted r2).state =
      { s with
        notificationsEnabled := true
        storedPref := true
        seen := ∅
        baseline := true } := by
    rw [h1]
    simp [toggleNotifications]
  rw [h2]
  have ha : strongMatchAlerts
      { s with
        notificationsEnabled := true
        storedPref := true
        seen := ∅
        baseline := true } data = [] :=
    strongMatchAlerts_of_baseline data rfl
  refine ⟨rfl, rfl, rfl, ha, ?_⟩
  rw [fetch_success_summaryToast, ha]
  rfl

/-- C7 (witness): the round trip from a concrete enabled state whose
seen-set already holds the snapshot's id: the snapshot is re-fetched
after disable+enable and nothing fires. -/
theorem toggle_roundtrip_witness :
    (toggleNotifications
        (toggleNotifications (SysState.mk [Job.mk (.num 5) "t" none] {"5"} false true true
          false false) .granted .granted).state .granted .granted).state.seen = ∅ ∧
    (toggleNotifications
        (toggleNotifications (SysState.mk [Job.mk (.num 5) "t" none] {"5"} false true true
          false false) .granted .granted).state .granted .granted).state.baseline = true ∧
    (toggleNotifications
        (toggleNotifications (SysState.mk [Job.mk (.num 5) "t" none] {"5"} false true true
          false false) .granted .granted).state .granted
        .granted).state.notificationsEnabled = true ∧
    (fetchJobsByRelevanceStrong
        (toggleNotifications
          (toggleNotifications (SysState.mk [Job.mk (.num 5) "t" none] {"5"} false true true
            false false) .granted .granted).state .granted .granted).state false
        (.success [Job.mk (.num 5) "t" none])).alerts = [] ∧
    (fetchJobsByRelevanceStrong
        (toggleNotifications
          (toggleNotifications (SysState.mk [Job.mk (.num 5) "t" none] {"5"} false true true
            false false) .granted .granted).state .granted .granted).state false
        (.success [Job.mk (.num 5) "t" none])).summaryToast = false :=
  toggle_roundtrip
    (SysState.mk [Job.mk (.num 5) "t" none] {"5"} false true true false false)
    .granted .granted .granted false [Job.mk (.num 5) "t" none] rfl

/-- C2 (counterexample): the claim equates the alerted set with
`ids(S2) - ids(S1)` over the snapshots' normalized ids. Take
`S1 = [{id: 1}]` and `S2 = [{id: 1}, {id: null}]`, with notifications
enabled and the baseline consumed by fetching `S1`: the normalized-id
difference is `{"null"}` (non-empty), but the code filters null-id items
out of the diff (line 258) and alerts on nothing. -/
theorem snapshot_diff_cex :
    (fetchJobsByRelevanceStrong
        (fetchJobsByRelevanceStrong (SysState.mk [] ∅ true true true false false) false
          (.success [Job.mk (.num 1) "a" none])).state
        false (.success [Job.mk (.num 1) "a" none, Job.mk .null "b" none])).alerts = [] ∧
    idsOf [Job.mk (.num 1) "a" none, Job.mk .null "b" none] \
        idsOf [Job.mk (.num 1) "a" none] ≠ ∅ := by
  constructor
  · rfl
  · decide

/-- C2 (amended): for two successful strong-match fetches with
notifications enabled and no re-arm between them, the set of ids alerted
on after fetching S2 equals the normalized ids of S2's *non-null-id*
items minus the normalized ids of *all* of S1's items (line 293 stores
the unfiltered ids, null included as the string "null"); the diff is
computed against the seen-set from before the second fetch (which equals
ids(S1)), and the seen-set becomes ids(S2) afterwards. -/
theorem snapshot_diff (s : SysState) (p1 p2 : Bool) (S1 S2 : List Job)
    (hEn : s.notificationsEnabled = true) :
    (fetchJobsByRelevanceStrong s p1 (.success S1)).state.seen = idsOf S1 ∧
    idsOf (fetchJobsByRelevanceStrong
        (fetchJobsByRelevanceStrong s p1 (.success S1)).state p2
        (.success S2)).alerts = validIdsOf S2 \ idsOf S1 ∧
    (fetchJobsByRelevanceStrong
        (fetchJobsByRelevanceStrong s p1 (.success S1)).state p2
        (.success S2)).state.seen = idsOf S2 := by
  refine ⟨rfl, ?_, rfl⟩
  rw [fetch_success_alerts, fetch_success_state]
  show idsOf (strongMatchAlerts
      { s with
        jobs := if p1 then mergeBackgroundStrong s.jobs S1 else S1
        seen := idsOf S1
        baseline := baselineAfterFetch s
        apiError := false
        loading := if p1 then s.loading else false } S2) = validIdsOf S2 \ idsOf S1
  unfold strongMatchAlerts
  simp only [hEn, baselineAfterFetch_of_enabled hEn, if_true]
  rw [if_neg Bool.false_ne_true]
  exact idsOf_filter_not_mem (validJobsOf S2) (idsOf S1)

/-- C2 (witness): the amended statement at concrete snapshots
`S1 = [{id: 1}]`, `S2 = [{id: 1}, {id: 2}]`: exactly id "2" is
alerted. -/
theorem snapshot_diff_witness :
    (fetchJobsByRelevanceStrong (SysState.mk [] ∅ true true true false false) false
        (.success [Job.mk (.num 1) "a" none])).state.seen =
      idsOf [Job.mk (.num 1) "a" none] ∧
    idsOf (fetchJobsByRelevanceStrong
        (fetchJobsByRelevanceStrong (SysState.mk [] ∅ true true true false false) false
          (.success [Job.mk (.num 1) "a" none])).state false
        (.success [Job.mk (.num 1) "a" none, Job.mk (.num 2) "b" none])).alerts =
      validIdsOf [Job.mk (.num 1) "a" none, Job.mk (.num 2) "b" none] \
        idsOf [Job.mk (.num 1) "a" none] ∧
    (fetchJobsByRelevanceStrong
        (fetchJobsByRelevanceStrong (SysState.mk [] ∅ true true true false false) false
          (.success [Job.mk (.num 1) "a" none])).state false
        (.success [Job.mk (.num 1) "a" none, Job.mk (.num 2) "b" none])).state.seen =
      idsOf [Job.mk (.num 1) "a" none, Job.mk (.num 2) "b" none] :=
  snapshot_diff (SysState.mk [] ∅ true true true false false) false false
    [Job.mk (.num 1) "a" none] [Job.mk (.num 1) "a" none, Job.mk (.num 2) "b" none] rfl

/-- Helper: the length of `s.take n` (the model of `substring(0, n)`). -/
theorem string_length_take (s : String) (n : Nat) :
    (s.take n).length = min n s.length := by
  rcases s with ⟨data⟩
  rw [String.take_eq]
  simp

/-- C8: the native alert's body is `"Details: "` followed by the title
truncated to its first 100 units with `"..."` appended exactly when the
title exceeds 100 units (titles of at most 100 units appear unmodified),
a blank line, and the description truncated likewise at 200 units; the
truncated title spans exactly 103 units (100 kept + the 3-unit ellipsis)
and similarly 203 for the description. -/
theorem notification_truncation (title desc : String) :
    notificationBody title desc =
      "Details: " ++ truncatedTitle title ++ "\n\n" ++ truncatedDescription desc ∧
    (title.length ≤ 100 → truncatedTitle title = title) ∧
    (100 < title.length →
      truncatedTitle title = title.take 100 ++ "..." ∧
        (truncatedTitle title).length = 103) ∧
    (desc.length ≤ 200 → truncatedDescription desc = desc) ∧
    (200 < desc.length →
      truncatedDescription desc = desc.take 200 ++ "..." ∧
        (truncatedDescription desc).length = 203) := by
  refine ⟨rfl, ?_, ?_, ?_, ?_⟩
  · intro h
    unfold truncatedTitle
    rw [if_neg (by omega)]
  · intro h
    have ht : truncatedTitle title = title.take 100 ++ "..." := by
      unfold truncatedTitle
      rw [if_pos h]
    refine ⟨ht, ?_⟩
    rw [ht, String.length_append, string_length_take]
    have h3 : ("..." : String).length = 3 := rfl
    omega
  · intro h
    unfold truncatedDescription
    rw [if_neg (by omega)]
  · intro h
    have hd : truncatedDescription desc = desc.take 200 ++ "..." := by
      unfold truncatedDescription
      rw [if_pos h]
    refine ⟨hd, ?_⟩
    rw [hd, String.length_append, string_length_take]
    have h3 : ("..." : String).length = 3 := rfl
    omega

set_option maxRecDepth 4000 in
/-- C8 (witness): short fields pass through unmodified; a 101-unit title
and a 201-unit description are cut at 100/200 units with the
ellipsis. -/
theorem notification_truncation_witness :
    truncatedTitle "hi" = "hi" ∧
    truncatedDescription "ok" = "ok" ∧
    truncatedTitle longTitle = longTitle.take 100 ++ "..." ∧
    truncatedDescription longDescription = longDescription.take 200 ++ "..." :=
  ⟨(notification_truncation "hi" "ok").2.1 (by decide),
   (notification_truncation "hi" "ok").2.2.2.1 (by decide),
   ((notification_truncation longTitle longDescription).2.2.1 (by decide)).1,
   ((notification_truncation longTitle longDescription).2.2.2.2 (by decide)).1⟩

/-- Helper: every scheduler event preserves the invariant. -/
theorem schedInv_step {s s' : SchedState} (hstep : SchedStep s s') (ih : SchedInv s) :
    SchedInv s' := by
  obtain ⟨ihn, ihp, ih2, ih3⟩ := ih
  cases hstep with
  | effectStart hpend =>
      have hact := ihn hpend
      refine ⟨?_, ?_, ?_, ?_⟩
      · intro hc
        cases hc
      · intro u hu
        rw [Option.some_inj] at hu
        subst hu
        refine ⟨Or.inr ?_, Nat.lt_succ_self _⟩
        rw [hact]
        rfl
      · exact fun t ht => Nat.lt_succ_of_lt (ih2 t ht)
      · intro t ht
        rw [hact]
        simp only [List.nil_append, List.mem_singleton]
        exact Nat.ne_of_lt (ih2 t ht)
  | effectCleanup t hpend =>
      obtain ⟨hor, hlt⟩ := ihp t hpend
      have herase : s.active.erase t = [] := by
        rcases hor with h' | h' <;> simp [h']
      refine ⟨fun _ => herase, ?_, ?_, ?_⟩
      · intro u hu
        cases hu
      · intro u hu
        rcases List.mem_cons.mp hu with h' | h'
        · exact h' ▸ hlt
        · exact ih2 u h'
      · intro u _
        rw [herase]
        exact List.not_mem_nil u
  | tick t ht => exact ⟨ihn, ihp, ih2, ih3⟩

/-- Helper: the scheduler invariant holds in every reachable state. -/
theorem schedInv_of_reachable {s : SchedState} (h : SchedReachable s) : SchedInv s := by
  induction h with
  | init => exact ⟨fun _ => rfl, by simp [initSched], by simp [initSched], by simp [initSched]⟩
  | step hr hstep ih => exact schedInv_step hstep ih

/-- C6: in every reachable state of the polling lifecycle at most one
timer is scheduled (restarting polling first cancels the prior timer, so
timers never stack), no cancelled timer is still scheduled, and no event
— in particular no tick of a cancelled timer — can add a cancelled
timer's pipeline run (a tick fires only for a timer that is scheduled and
not cleared). -/
theorem pollScheduler_single_timer (s : SchedState) (h : SchedReachable s) :
    s.active.length ≤ 1 ∧
    (∀ t ∈ s.cancelled, t ∉ s.active) ∧
    (∀ s' : SchedState, SchedStep s s' → ∀ t ∈ s.cancelled,
      (t ∈ s'.pipelineRuns ↔ t ∈ s.pipelineRuns)) := by
  obtain ⟨hn, hp, h2, h3⟩ := schedInv_of_reachable h
  refine ⟨?_, h3, ?_⟩
  · rcases hq : s.pendingCleanup with _ | t
    · rw [hn hq]
      exact Nat.zero_le 1
    · rcases (hp t hq).1 with h' | h' <;> simp [h']
  · intro s' hstep t ht
    cases hstep with
    | effectStart _ => exact Iff.rfl
    | effectCleanup u _ => exact Iff.rfl
    | tick u hu =>
        have hne : t ≠ u := fun he => (h3 t ht) (he ▸ hu)
        simp [List.mem_cons, hne]

/-- C6 (witness): the state reached by start → cleanup (mode change) →
start: one timer scheduled, the cancelled handle 0 no longer active. -/
theorem pollScheduler_single_timer_witness :
    (SchedState.mk [1] (some 1) [0] 2 []).active.length ≤ 1 ∧
    (∀ t ∈ (SchedState.mk [1] (some 1) [0] 2 []).cancelled,
      t ∉ (SchedState.mk [1] (some 1) [0] 2 []).active) ∧
    (∀ s' : SchedState, SchedStep (SchedState.mk [1] (some 1) [0] 2 []) s' →
      ∀ t ∈ (SchedState.mk [1] (some 1) [0] 2 []).cancelled,
        (t ∈ s'.pipelineRuns ↔ t ∈ (SchedState.mk [1] (some 1) [0] 2 []).pipelineRuns)) :=
  pollScheduler_single_timer _
    (SchedReachable.step
      (SchedReachable.step
        (SchedReachable.step SchedReachable.init (SchedStep.effectStart _ rfl))
        (SchedStep.effectCleanup _ 0 rfl))
      (SchedStep.effectStart _ rfl))

end UpSale
